import Mathlib

/-!
Verification of `Project-Kaleidoscope/android_hardware_interfaces`.

The repository holds two source files:

* `soundtrigger/2.1/vts/functional/VtsHalSoundtriggerV2_1TargetTest.cpp` —
  a VTS conformance suite for the sound-trigger HAL, containing the
  `Monitor` rendezvous class and five `TEST_P` test bodies;
* an AIDL file declaring the `AudioFocusChange` enum for
  `android.hardware.automotive.audiocontrol`.

The development embeds:
  1. the `AudioFocusChange` enum constants, with the source's arithmetic
     (`LOSS = -1 * GAIN`, ...) kept literally;
  2. the `Monitor` class (mutex + condition variable + `int mCount`) as a
     transition system: every access to `mCount` happens under the mutex,
     so any concurrent execution linearizes into a sequence of atomic
     operations (`notify`, and a `wait` that either succeeds or times out);
  3. each `TEST_P` body as the straight-line sequence of steps it performs,
     abstracted to the step kinds the claims talk about (parameter
     construction, remote HAL call, status assertions, callback-wait
     assertion);
  4. the random-fill loop of `LoadGenericSoundModelFail_2_1` as the exact
     list of byte offsets it stores to, with the loop counter kept as a
     mathematical integer mirroring the C `int`;
  5. the HIDL synchronous result-callback convention, modelled from the
     spec because the transport is consumed, not implemented, in this
     repository.
-/

/-! ## AudioFocusChange enum (AIDL source, lines 24-33) -/

namespace AudioFocusChange

/-- Enum constant `NONE = 0`. -/
def NONE : Int := 0

/-- Enum constant `GAIN = 1`. -/
def GAIN : Int := 1

/-- Enum constant `GAIN_TRANSIENT = 2`. -/
def GAIN_TRANSIENT : Int := 2

/-- Enum constant `GAIN_TRANSIENT_MAY_DUCK = 3`. -/
def GAIN_TRANSIENT_MAY_DUCK : Int := 3

/-- Enum constant `GAIN_TRANSIENT_EXCLUSIVE = 4`. -/
def GAIN_TRANSIENT_EXCLUSIVE : Int := 4

/-- Enum constant `LOSS = -1 * GAIN`, kept as the source writes it. -/
def LOSS : Int := -1 * GAIN

/-- Enum constant `LOSS_TRANSIENT = -1 * GAIN_TRANSIENT`. -/
def LOSS_TRANSIENT : Int := -1 * GAIN_TRANSIENT

/-- Enum constant `LOSS_TRANSIENT_CAN_DUCK = -1 * GAIN_TRANSIENT_MAY_DUCK`. -/
def LOSS_TRANSIENT_CAN_DUCK : Int := -1 * GAIN_TRANSIENT_MAY_DUCK

end AudioFocusChange

/-! ## The Monitor rendezvous (test source, lines 62-95)

`Monitor` holds `int mCount` guarded by `mMtx`.  `notify()` takes the lock,
increments `mCount` and signals the condition variable.  `wait(t)` takes the
lock and calls `wait_until` with predicate `count > 0`; `wait_until` returns
the predicate's value at the moment it stops waiting (a wake-up that finds
the predicate true, or the deadline).  On `true` the method decrements
`mCount` and returns `true`; on `false` it returns `false` leaving `mCount`
unchanged.  Because every read or write of `mCount` happens with the mutex
held, a concurrent history linearizes into a sequence of these atomic
operations; real time is abstracted into which branch `wait` takes. -/

/-- State of the `Monitor` class: the `int mCount` field.  The constructor
initializes it to 0. -/
structure Monitor where
  mCount : Int
deriving DecidableEq

/-- State produced by the `Monitor()` constructor (source line 64). -/
def Monitor.init : Monitor := ⟨0⟩

/-- Method `notify()` (source lines 69-73): adds 1 to the internal counter
(the `notify_one` call only wakes a waiter and does not change state). -/
def Monitor.notify (m : Monitor) : Monitor := ⟨m.mCount + 1⟩

/-- Method `wait(timeoutSeconds)` (source lines 81-89), evaluated at the
state `m` holding when `wait_until` stops waiting: if the predicate
`count > 0` holds there (a notification arrived before the deadline), the
method decrements the counter and returns `true`; otherwise the deadline
passed with the predicate false and it returns `false`, state unchanged. -/
def Monitor.wait (m : Monitor) : Bool × Monitor :=
  if m.mCount > 0 then (true, ⟨m.mCount - 1⟩) else (false, m)

/-- Atomic operations on a `Monitor`, as they linearize under `mMtx`:
a `notify()` call, or the completion of a `wait()` call with its boolean
result. -/
inductive MonitorOp
  | notify
  | waitRet (result : Bool)
deriving DecidableEq

/-- One linearized step.  `waitRet b` is possible from `m` exactly when
`Monitor.wait` at `m` yields result `b`; `none` marks an outcome the code
cannot produce from that state. -/
def monitorStep (m : Monitor) : MonitorOp → Option Monitor
  | .notify => some m.notify
  | .waitRet b => if (m.wait).1 = b then some (m.wait).2 else none

/-- Runs a sequence of linearized operations from state `m`; `none` when
some operation in the sequence is impossible from the state it meets. -/
def runTrace (m : Monitor) : List MonitorOp → Option Monitor
  | [] => some m
  | op :: ops =>
    match monitorStep m op with
    | some m' => runTrace m' ops
    | none => none

/-- Number of `notify()` calls in a sequence of operations. -/
def notifyCount : List MonitorOp → Nat
  | [] => 0
  | .notify :: ops => notifyCount ops + 1
  | .waitRet _ :: ops => notifyCount ops

/-! ## The test bodies (test source, lines 184-318)

Each `TEST_P` body is straight-line code.  We transliterate each body into
the list of steps it performs, keeping the source order and abstracting each
statement to the step kind the claims talk about. -/

/-- The `#define SHORT_TIMEOUT_PERIOD (1)` constant (source line 38),
in seconds. -/
def SHORT_TIMEOUT_PERIOD : Int := 1

/-- The four remote methods of the sound-trigger HAL that the suite
invokes on `mSoundTriggerHal`. -/
inductive HalMethod
  | loadPhraseSoundModel_2_1
  | loadSoundModel
  | loadSoundModel_2_1
  | startRecognition_2_1
deriving DecidableEq

/-- One statement of a test body, abstracted to its kind:

* `declareLocals` — the local variable declarations with their
  initializers (e.g. `int ret = -ENODEV;`);
* `buildParam` — a statement filling in the sound model or recognition
  config parameter block (e.g. `model.header.type = ...`,
  `config.header.phrases.setToExternal(...)`);
* `allocCall` — a remote call to the ashmem allocator service or to
  `mapMemory` while preparing shared memory;
* `assertSetupOk` — an `ASSERT_*` on service/allocation success
  (`ASSERT_NE(nullptr, ...)`, `ASSERT_TRUE(success)`); these assert on the
  setup, not on the HAL status or on a notification;
* `memUpdate` — the `memory->update()` call;
* `fillRandom size` — the loop storing `rand()` bytes into the shared
  memory allocated with the given size;
* `halCall m` — the remote call to the sound-trigger HAL method under
  test;
* `expectTransportOk` — `EXPECT_TRUE(<return>.isOk())`;
* `expectStatusNonZero` — `EXPECT_NE(0, <status>)`;
* `expectNoCallback t` — `EXPECT_FALSE(monitor.wait(t))`. -/
inductive TestStep
  | declareLocals
  | buildParam
  | allocCall
  | assertSetupOk
  | memUpdate
  | fillRandom (size : Int)
  | halCall (m : HalMethod)
  | expectTransportOk
  | expectStatusNonZero
  | expectNoCallback (timeoutSeconds : Int)
deriving DecidableEq

/-- Phase of a step in the construct / call / check-status / wait order the
spec describes: 0 for parameter construction and setup, 1 for the remote
HAL call, 2 for assertions on the returned status, 3 for the wait on an
asynchronous notification. -/
def TestStep.phase : TestStep → Nat
  | .declareLocals => 0
  | .buildParam => 0
  | .allocCall => 0
  | .assertSetupOk => 0
  | .memUpdate => 0
  | .fillRandom _ => 0
  | .halCall _ => 1
  | .expectTransportOk => 2
  | .expectStatusNonZero => 2
  | .expectNoCallback _ => 3

/-- Tests whether a step is the remote HAL call under test. -/
def TestStep.isHalCall : TestStep → Bool
  | .halCall _ => true
  | _ => false

/-- Tests whether a step asserts on the status returned by the HAL call
(either the transport status or the vendor status code). -/
def TestStep.isStatusCheck : TestStep → Bool
  | .expectTransportOk => true
  | .expectStatusNonZero => true
  | _ => false

/-- Tests whether a step asserts that no asynchronous callback arrived,
i.e. is an `EXPECT_FALSE(monitor.wait(...))`. -/
def TestStep.isNoCallbackCheck : TestStep → Bool
  | .expectNoCallback _ => true
  | _ => false

/-- Body of `TEST_P(SoundTriggerHidlTest, LoadInvalidModelFail_2_1)`
(source lines 184-201): declare locals, set
`model.common.header.type = SoundModelType::UNKNOWN`, call
`loadPhraseSoundModel_2_1`, `EXPECT_TRUE(hidlReturn.isOk())`,
`EXPECT_NE(0, ret)`, `EXPECT_FALSE(monitor.wait(SHORT_TIMEOUT_PERIOD))`. -/
def LoadInvalidModelFail_2_1 : List TestStep :=
  [.declareLocals, .buildParam, .halCall .loadPhraseSoundModel_2_1,
   .expectTransportOk, .expectStatusNonZero,
   .expectNoCallback SHORT_TIMEOUT_PERIOD]

/-- Body of `TEST_P(SoundTriggerHidlTest, LoadEmptyGenericSoundModelFail)`
(source lines 209-225): declare locals, set
`model.type = SoundModelType::GENERIC`, call `loadSoundModel`, then the
same three assertions. -/
def LoadEmptyGenericSoundModelFail : List TestStep :=
  [.declareLocals, .buildParam, .halCall .loadSoundModel,
   .expectTransportOk, .expectStatusNonZero,
   .expectNoCallback SHORT_TIMEOUT_PERIOD]

/-- Body of `TEST_P(SoundTriggerHidlTest, LoadEmptyGenericSoundModelFail_2_1)`
(source lines 233-249): declare locals, set
`model.header.type = SoundModelType::GENERIC`, call `loadSoundModel_2_1`,
then the same three assertions. -/
def LoadEmptyGenericSoundModelFail_2_1 : List TestStep :=
  [.declareLocals, .buildParam, .halCall .loadSoundModel_2_1,
   .expectTransportOk, .expectStatusNonZero,
   .expectNoCallback SHORT_TIMEOUT_PERIOD]

/-- Body of `TEST_P(SoundTriggerHidlTest, LoadGenericSoundModelFail_2_1)`
(source lines 257-288): declare locals, set
`model.header.type = SoundModelType::GENERIC`, get the ashmem service and
assert it, `allocate(100)` with its inner `ASSERT_TRUE(success)`,
`mapMemory` and assert it, `memory->update()`, the random-fill loop over
the 100-byte allocation, call `loadSoundModel_2_1`, then the same three
assertions. -/
def LoadGenericSoundModelFail_2_1 : List TestStep :=
  [.declareLocals, .buildParam, .allocCall, .assertSetupOk,
   .allocCall, .assertSetupOk, .allocCall, .assertSetupOk, .memUpdate,
   .fillRandom 100, .halCall .loadSoundModel_2_1,
   .expectTransportOk, .expectStatusNonZero,
   .expectNoCallback SHORT_TIMEOUT_PERIOD]

/-- Body of `TEST_P(SoundTriggerHidlTest, StartRecognitionNoModelFail_2_1)`
(source lines 300-318): declare locals, fill in `config.header.*` and the
`phrase` fields and `setToExternal`, call `startRecognition_2_1`,
`EXPECT_TRUE(hidlReturn.isOk())`, `EXPECT_NE(0, hidlReturn)`.  There is no
`monitor.wait` assertion in this body. -/
def StartRecognitionNoModelFail_2_1 : List TestStep :=
  [.declareLocals, .buildParam, .buildParam, .buildParam, .buildParam,
   .buildParam, .buildParam, .halCall .startRecognition_2_1,
   .expectTransportOk, .expectStatusNonZero]

/-- The four load tests that pass a deliberately malformed, empty, or
random-data sound model. -/
def loadFailTests : List (List TestStep) :=
  [LoadInvalidModelFail_2_1, LoadEmptyGenericSoundModelFail,
   LoadEmptyGenericSoundModelFail_2_1, LoadGenericSoundModelFail_2_1]

/-- All five test bodies of the suite, in source order. -/
def allTests : List (List TestStep) :=
  [LoadInvalidModelFail_2_1, LoadEmptyGenericSoundModelFail,
   LoadEmptyGenericSoundModelFail_2_1, LoadGenericSoundModelFail_2_1,
   StartRecognitionNoModelFail_2_1]

/-! ## The random-fill loop of LoadGenericSoundModelFail_2_1 (source
lines 266-277)

The test allocates `int size = 100;` bytes of shared memory, then runs

```
for (uint8_t *p = base; size >= 0; p++, size--) { *p = rand(); }
```

reusing the same `size` variable as the loop counter.  Each iteration
stores one byte at the current offset of `p` from the mapped base.  We
embed the loop as the list of offsets it stores to, keeping the counter as
a mathematical integer (the values involved stay far from `int`
overflow). -/

/-- Offsets stored to by the fill loop, starting with `p` at offset `off`
and the counter at `size`: one store per iteration while `size >= 0`,
with `p++, size--` between iterations. -/
def fillLoopOffsets (off : Nat) (size : Int) : List Nat :=
  if 0 ≤ size then off :: fillLoopOffsets (off + 1) (size - 1) else []
termination_by (size + 1).toNat
decreasing_by simp_wf; omega

/-- The allocation size in `LoadGenericSoundModelFail_2_1`:
`int size = 100;` passed to `ashmem->allocate(size, ...)`. -/
def allocationSize : Nat := 100

/-- The byte offsets the random-fill loop of
`LoadGenericSoundModelFail_2_1` stores to: `p` starts at the mapped base
(offset 0) and the counter starts at the allocation size, 100. -/
def genericFillStores : List Nat := fillLoopOffsets 0 100

/-! ## HIDL synchronous result delivery

Modelled from the spec: the HIDL transport and the vendor HAL binary are
not part of this repository (the spec: "Errors are vendor-defined status
codes returned synchronously from remote calls"; the call mechanism is "a
pre-existing platform transport consumed — not implemented — here").  A
remote method taking a result lambda returns a transport-level
`Return<void>`; when that return `isOk()`, the vendor's result values were
delivered by invoking the lambda synchronously, before the call returned. -/

/-- Modelled from the spec: outcome of a remote HIDL load call, missing
from `src/` because the transport is platform code.  `isOk` is the
transport status reported by `Return<void>::isOk()`; `vendorStatus` is the
vendor-defined status code the HAL passes to the result lambda when the
transport succeeds. -/
structure HidlLoadReturn where
  isOk : Bool
  vendorStatus : Int
deriving DecidableEq

/-- Modelled from the spec: what the transport delivers to the result
lambda — the vendor status when the call completes with `isOk()`, nothing
when the transport fails. -/
def lambdaDelivery (r : HidlLoadReturn) : Option Int :=
  if r.isOk then some r.vendorStatus else none

/-- The `ENODEV` errno constant used by the tests' sentinel
initialization `int ret = -ENODEV;`. -/
def ENODEV : Int := 19

/-- Value of the test-local variable `ret` after a load call: initialized
to `-ENODEV`, overwritten with `retval` by the lambda body
`ret = retval;` exactly when the lambda was invoked. -/
def retAfterLoadCall (delivered : Option Int) : Int :=
  match delivered with
  | some retval => retval
  | none => -ENODEV

/-- Checks that a list of phase numbers is nondecreasing. -/
def phasesNondecreasing : List Nat → Bool
  | [] => true
  | [_] => true
  | a :: b :: rest => decide (a ≤ b) && phasesNondecreasing (b :: rest)

/-- Property of a test body used to state the construct / call / check
order: the phase sequence is nondecreasing, the body builds a parameter
block, performs a HAL call and a status check, and no status or
notification assertion appears before the HAL call. -/
def followsStepOrder (t : List TestStep) : Prop :=
  phasesNondecreasing (t.map TestStep.phase) = true ∧
  TestStep.buildParam ∈ t ∧
  t.any TestStep.isHalCall = true ∧
  t.any TestStep.isStatusCheck = true ∧
  ((t.takeWhile fun s => !s.isHalCall).all
    fun s => !(s.isStatusCheck || s.isNoCallbackCheck)) = true

/-- Property of a test body: it contains exactly one remote HAL call under
test, and no HAL call occurs at or after the first status assertion, so a
failing status code is never followed by a re-invocation. -/
def invokesHalExactlyOnce (t : List TestStep) : Prop :=
  (t.filter TestStep.isHalCall).length = 1 ∧
  (t.dropWhile fun s => !s.isStatusCheck).filter TestStep.isHalCall = []

instance (t : List TestStep) : Decidable (followsStepOrder t) := by
  unfold followsStepOrder
  infer_instance

instance (t : List TestStep) : Decidable (invokesHalExactlyOnce t) := by
  unfold invokesHalExactlyOnce
  infer_instance

/-! ## Helper lemmas -/

/-- The post-state of a `wait` never has a larger counter, and preserves
nonnegativity of the counter. -/
theorem Monitor.wait_snd_mCount (m : Monitor) :
    (m.wait).2.mCount ≤ m.mCount ∧ (0 ≤ m.mCount → 0 ≤ (m.wait).2.mCount) := by
  by_cases h : m.mCount > 0
  · simp [Monitor.wait, h]
    omega
  · simp [Monitor.wait, h]

/-- Along any linearized trace the counter grows by at most the number of
`notify()` calls and stays nonnegative. -/
theorem runTrace_mCount_bounds (ops : List MonitorOp) :
    ∀ m m' : Monitor, runTrace m ops = some m' →
      m'.mCount ≤ m.mCount + notifyCount ops ∧ (0 ≤ m.mCount → 0 ≤ m'.mCount) := by
  induction ops with
  | nil =>
    intro m m' h
    simp only [runTrace, Option.some.injEq] at h
    subst h
    simp [notifyCount]
  | cons op ops ih =>
    intro m m' h
    cases op with
    | notify =>
      simp only [runTrace, monitorStep] at h
      have hb := ih _ _ h
      simp only [Monitor.notify] at hb
      simp only [notifyCount]
      constructor
      · have := hb.1
        push_cast
        omega
      · intro h0
        exact hb.2 (by simpa using by omega)
    | waitRet b =>
      simp only [runTrace, monitorStep] at h
      by_cases hw : (m.wait).1 = b
      · simp only [hw, if_pos rfl] at h
        have hb := ih _ _ h
        have hm := Monitor.wait_snd_mCount m
        simp only [notifyCount]
        exact ⟨by omega, fun h0 => hb.2 (hm.2 h0)⟩
      · simp [hw] at h

/-! ## Claim theorems -/

/-- C9: in the AudioFocusChange enum each loss constant is the arithmetic
negation of the corresponding gain constant (LOSS = -GAIN = -1,
LOSS_TRANSIENT = -GAIN_TRANSIENT = -2,
LOSS_TRANSIENT_CAN_DUCK = -GAIN_TRANSIENT_MAY_DUCK = -3), NONE = 0, and
the gain constants take the distinct values 1 through 4. -/
theorem audioFocusChange_loss_negates_gain :
    AudioFocusChange.LOSS = -AudioFocusChange.GAIN ∧
    AudioFocusChange.LOSS = -1 ∧
    AudioFocusChange.LOSS_TRANSIENT = -AudioFocusChange.GAIN_TRANSIENT ∧
    AudioFocusChange.LOSS_TRANSIENT = -2 ∧
    AudioFocusChange.LOSS_TRANSIENT_CAN_DUCK =
      -AudioFocusChange.GAIN_TRANSIENT_MAY_DUCK ∧
    AudioFocusChange.LOSS_TRANSIENT_CAN_DUCK = -3 ∧
    AudioFocusChange.NONE = 0 ∧
    AudioFocusChange.GAIN = 1 ∧
    AudioFocusChange.GAIN_TRANSIENT = 2 ∧
    AudioFocusChange.GAIN_TRANSIENT_MAY_DUCK = 3 ∧
    AudioFocusChange.GAIN_TRANSIENT_EXCLUSIVE = 4 := by
  decide

/-- C3: `Monitor::wait(timeoutSeconds)` returns true exactly when the
counter is greater than 0 at the moment `wait_until` stops waiting (that
is, the counter became positive before the deadline); when it returns true
it decrements the counter by exactly 1, and on timeout it returns false
with the state unchanged. -/
theorem monitor_wait_correct (m : Monitor) :
    ((m.wait).1 = true ↔ 0 < m.mCount) ∧
    (0 < m.mCount → (m.wait).2.mCount = m.mCount - 1) ∧
    (¬ 0 < m.mCount → (m.wait).1 = false ∧ (m.wait).2 = m) := by
  by_cases h : m.mCount > 0 <;> simp [Monitor.wait, h]

/-- Witness for C3 at the concrete states mCount = 1 and mCount = 0. -/
theorem monitor_wait_correct_witness :
    (Monitor.wait ⟨1⟩).2.mCount = 1 - 1 ∧
    (Monitor.wait ⟨0⟩).1 = false ∧ (Monitor.wait ⟨0⟩).2 = ⟨0⟩ :=
  ⟨(monitor_wait_correct ⟨1⟩).2.1 (by decide),
   ((monitor_wait_correct ⟨0⟩).2.2 (by decide)).1,
   ((monitor_wait_correct ⟨0⟩).2.2 (by decide)).2⟩

/-- C6: the Monitor counter is never negative: `notify()` increments the
counter by exactly 1, a successful `wait()` decrements only from a state
with counter greater than 0, and along every linearized operation sequence
from the initial state the counter stays nonnegative. -/
theorem monitor_count_nonneg :
    (∀ m : Monitor, (m.notify).mCount = m.mCount + 1) ∧
    (∀ m m' : Monitor, monitorStep m (.waitRet true) = some m' →
      0 < m.mCount ∧ m'.mCount = m.mCount - 1) ∧
    (∀ (ops : List MonitorOp) (m : Monitor),
      runTrace Monitor.init ops = some m → 0 ≤ m.mCount) := by
  refine ⟨fun m => rfl, ?_, ?_⟩
  · intro m m' h
    by_cases h2 : m.mCount > 0 <;>
      simp [monitorStep, Monitor.wait, h2] at h
    subst h
    exact ⟨h2, rfl⟩
  · intro ops m h
    exact (runTrace_mCount_bounds ops Monitor.init m h).2 (by simp [Monitor.init])

/-- Witness for C6: a successful wait from mCount = 1, and the trace
notify-then-wait ending at mCount = 0. -/
theorem monitor_count_nonneg_witness :
    ((0:Int) < (Monitor.mk 1).mCount ∧
      (Monitor.mk 0).mCount = (Monitor.mk 1).mCount - 1) ∧
    (0:Int) ≤ (Monitor.mk 0).mCount :=
  ⟨monitor_count_nonneg.2.1 ⟨1⟩ ⟨0⟩ (by decide),
   monitor_count_nonneg.2.2 [.notify, .waitRet true] ⟨0⟩ (by decide)⟩

/-- C4 counterexample: two consecutive `notify()` calls from the initial
state drive the counter to 2, so the counter is not bounded by 1. -/
theorem monitor_counter_reaches_two :
    runTrace Monitor.init [MonitorOp.notify, MonitorOp.notify] = some ⟨2⟩ ∧
    ¬ (Monitor.mk 2).mCount ≤ 1 := by
  decide

/-- C4 (amended): for every sequence of notify() and wait() calls starting
from the initial state, the counter never exceeds the number of notify()
calls in the sequence; nothing bounds it by 1. -/
theorem monitor_count_le_notifies (ops : List MonitorOp) (m : Monitor)
    (h : runTrace Monitor.init ops = some m) :
    m.mCount ≤ (notifyCount ops : Int) := by
  have hb := (runTrace_mCount_bounds ops Monitor.init m h).1
  simpa [Monitor.init] using hb

/-- Witness for the amended C4 at the trace of two notify() calls. -/
theorem monitor_count_le_notifies_witness :
    (Monitor.mk 2).mCount ≤ (notifyCount [MonitorOp.notify, MonitorOp.notify] : Int) :=
  monitor_count_le_notifies [MonitorOp.notify, MonitorOp.notify] ⟨2⟩ (by decide)

/-- C1: each of the four malformed / empty / random-data load tests
contains the assertion that the returned status code is non-zero and the
assertion that `monitor.wait(SHORT_TIMEOUT_PERIOD)` returns false (no
sound-model completion callback arrives). -/
theorem load_fail_tests_assert_error_and_no_callback :
    (TestStep.expectStatusNonZero ∈ LoadInvalidModelFail_2_1 ∧
      TestStep.expectNoCallback SHORT_TIMEOUT_PERIOD ∈ LoadInvalidModelFail_2_1) ∧
    (TestStep.expectStatusNonZero ∈ LoadEmptyGenericSoundModelFail ∧
      TestStep.expectNoCallback SHORT_TIMEOUT_PERIOD ∈ LoadEmptyGenericSoundModelFail) ∧
    (TestStep.expectStatusNonZero ∈ LoadEmptyGenericSoundModelFail_2_1 ∧
      TestStep.expectNoCallback SHORT_TIMEOUT_PERIOD ∈ LoadEmptyGenericSoundModelFail_2_1) ∧
    (TestStep.expectStatusNonZero ∈ LoadGenericSoundModelFail_2_1 ∧
      TestStep.expectNoCallback SHORT_TIMEOUT_PERIOD ∈ LoadGenericSoundModelFail_2_1) := by
  decide

/-- C2 counterexample: `StartRecognitionNoModelFail_2_1` is one of the
suite's tests with a deliberately invalid input and asserts a non-zero
status code, yet its body contains no `monitor.wait` assertion at all, so
it does not assert that no asynchronous completion event follows. -/
theorem startRecognition_lacks_async_assertion :
    StartRecognitionNoModelFail_2_1 ∈ allTests ∧
    TestStep.expectStatusNonZero ∈ StartRecognitionNoModelFail_2_1 ∧
    StartRecognitionNoModelFail_2_1.filter TestStep.isNoCallbackCheck = [] := by
  decide

/-- C2 (amended): the four load tests each assert a non-zero status code
and that no asynchronous completion event follows; the fifth test with an
invalid input, StartRecognitionNoModelFail_2_1, asserts only the non-zero
status code and contains no assertion about asynchronous events. -/
theorem invalid_input_tests_assertions :
    (TestStep.expectStatusNonZero ∈ LoadInvalidModelFail_2_1 ∧
      TestStep.expectNoCallback SHORT_TIMEOUT_PERIOD ∈ LoadInvalidModelFail_2_1) ∧
    (TestStep.expectStatusNonZero ∈ LoadEmptyGenericSoundModelFail ∧
      TestStep.expectNoCallback SHORT_TIMEOUT_PERIOD ∈ LoadEmptyGenericSoundModelFail) ∧
    (TestStep.expectStatusNonZero ∈ LoadEmptyGenericSoundModelFail_2_1 ∧
      TestStep.expectNoCallback SHORT_TIMEOUT_PERIOD ∈ LoadEmptyGenericSoundModelFail_2_1) ∧
    (TestStep.expectStatusNonZero ∈ LoadGenericSoundModelFail_2_1 ∧
      TestStep.expectNoCallback SHORT_TIMEOUT_PERIOD ∈ LoadGenericSoundModelFail_2_1) ∧
    (TestStep.expectStatusNonZero ∈ StartRecognitionNoModelFail_2_1 ∧
      StartRecognitionNoModelFail_2_1.filter TestStep.isNoCallbackCheck = []) := by
  decide

/-- C7: every test body follows the order construct-parameters, invoke
the remote HAL method, check the returned status, then optionally wait
for a notification: the phase sequence of each body is nondecreasing, and
no status or notification assertion precedes the HAL call. -/
theorem tests_follow_step_order :
    followsStepOrder LoadInvalidModelFail_2_1 ∧
    followsStepOrder LoadEmptyGenericSoundModelFail ∧
    followsStepOrder LoadEmptyGenericSoundModelFail_2_1 ∧
    followsStepOrder LoadGenericSoundModelFail_2_1 ∧
    followsStepOrder StartRecognitionNoModelFail_2_1 := by
  decide

/-- C10: every test body invokes the remote HAL operation under test
exactly once, and never re-invokes it after a status assertion, so there
is no retry after a failing status code. -/
theorem tests_invoke_hal_exactly_once :
    invokesHalExactlyOnce LoadInvalidModelFail_2_1 ∧
    invokesHalExactlyOnce LoadEmptyGenericSoundModelFail ∧
    invokesHalExactlyOnce LoadEmptyGenericSoundModelFail_2_1 ∧
    invokesHalExactlyOnce LoadGenericSoundModelFail_2_1 ∧
    invokesHalExactlyOnce StartRecognitionNoModelFail_2_1 := by
  decide

/-- C8: in every load test the vendor status code is delivered
synchronously: when the remote load call returns with `isOk()`, the
transport has invoked the result lambda with the vendor status, so the
asserted variable `ret` holds that status rather than its sentinel
initialization value `-ENODEV`. -/
theorem load_ret_is_vendor_status (r : HidlLoadReturn) (h : r.isOk = true) :
    lambdaDelivery r = some r.vendorStatus ∧
    retAfterLoadCall (lambdaDelivery r) = r.vendorStatus := by
  simp [lambdaDelivery, retAfterLoadCall, h]

/-- Witness for C8 at a transport-successful call with vendor status 7. -/
theorem load_ret_is_vendor_status_witness :
    lambdaDelivery ⟨true, 7⟩ = some 7 ∧
    retAfterLoadCall (lambdaDelivery ⟨true, 7⟩) = 7 :=
  load_ret_is_vendor_status ⟨true, 7⟩ rfl

/-- An iteration count that starts nonnegative makes the fill loop visit
exactly the offsets of `List.range'`: one more store than the counter's
starting value. -/
theorem fillLoopOffsets_eq_range (n : Nat) :
    ∀ off : Nat, fillLoopOffsets off (n : Int) = List.range' off (n + 1) := by
  induction n with
  | zero =>
    intro off
    rw [fillLoopOffsets]
    norm_num
    rw [fillLoopOffsets]
    norm_num
  | succ n ih =>
    intro off
    rw [fillLoopOffsets]
    have h1 : (0:Int) ≤ ((n + 1 : Nat) : Int) := by positivity
    rw [if_pos h1]
    have h2 : ((n + 1 : Nat) : Int) - 1 = (n : Int) := by push_cast; ring
    rw [h2, ih]
    rfl

/-- C5 evaluated at the failing input: with the allocation size 100, the
fill loop of LoadGenericSoundModelFail_2_1 performs 101 stores at offsets
0..100, so it stores one byte past the end of the 100-byte allocation and
does not perform exactly 100 iterations at offsets 0..99. -/
theorem generic_fill_loop_out_of_bounds :
    genericFillStores.length = 101 ∧
    100 ∈ genericFillStores ∧
    ¬ (∀ off ∈ genericFillStores, off < allocationSize) := by
  have h100 : ((100 : Nat) : Int) = (100 : Int) := by norm_num
  have h := fillLoopOffsets_eq_range 100 0
  rw [h100] at h
  have hg : genericFillStores = List.range' 0 101 := h
  rw [hg]
  decide
